import Mathlib

/-!
Verification of the keyword intent classifier and canned-response generator
of the AI-RealTime-Sales-Call-Assistant repository.

The two scripts `app.py` and `sentiment analysis.py` contain the pure logic
verified here: `detect_intent` (ordered keyword-substring rules over the
lowercased transcript) and `ai_sales_response` (a table from intent and
sentiment label to a fixed triple of strings).  The embedding below mirrors
those functions directly; the external ML collaborators (Whisper, the
sentiment pipeline, spaCy) are not reimplemented, only the collaborator
calls the top-level pipeline issues are modelled as a trace.
-/

namespace SalesAssistant

/-- Python `str.lower()` as used on transcripts: character-wise lowering
(basic-latin letters), applied to the string's character list. -/
def pyLower (s : String) : String :=
  String.mk (s.data.map Char.toLower)

/-- Is `sub` a prefix of `l`?  Auxiliary for the substring test. -/
def listPre : List Char → List Char → Bool
  | [], _ => true
  | _ :: _, [] => false
  | a :: as, b :: bs => a == b && listPre as bs

/-- Is `sub` a contiguous sublist of `l`?  Embeds Python's `sub in s` on
strings, over character lists. -/
def listSub (sub : List Char) : List Char → Bool
  | [] => sub.isEmpty
  | b :: bs => listPre sub (b :: bs) || listSub sub bs

/-- Python `sub in s` for strings. -/
def strContains (s sub : String) : Bool :=
  listSub sub.data s.data

/-- Python `any(x in t for x in kws)`. -/
def containsAny (t : String) (kws : List String) : Bool :=
  kws.any (fun k => strContains t k)

/-- `detect_intent` from `src/code/app.py` (lines 38-56): lowercase the
text, then test five keyword sets in order, returning the first matching
label, defaulting to `"General"`. -/
def detect_intent (text : String) : String :=
  let t := pyLower text
  if containsAny t ["buy", "purchase", "interested", "get a new"] then
    "Purchase Interest"
  else if containsAny t ["price", "cost", "how much", "expensive"] then
    "Ask for Price"
  else if containsAny t ["not working", "issue", "problem", "complaint"] then
    "Complaint"
  else if containsAny t ["compare", "specs", "camera", "battery"] then
    "Product Comparison"
  else if containsAny t ["offer", "discount", "deal"] then
    "Ask for Offers"
  else
    "General"

/-- `detect_intent` from `src/code/sentiment analysis.py` (lines 38-50):
same keyword sets and order, but three of the labels are spelled
differently. -/
def detect_intent_sa (text : String) : String :=
  let t := pyLower text
  if containsAny t ["buy", "purchase", "interested", "get a new"] then
    "Purchase Interest"
  else if containsAny t ["price", "cost", "how much", "expensive"] then
    "Ask for price"
  else if containsAny t ["not working", "issue", "problem", "complaint"] then
    "Complaint"
  else if containsAny t ["compare", "specs", "camera", "battery"] then
    "Compare Product"
  else if containsAny t ["offer", "discount", "deal"] then
    "Ask for offers"
  else
    "General"

/-- The dict returned by `ai_sales_response`: three canned strings. -/
structure SalesResponse where
  next_question : String
  soft_handling : String
  recommendation : String
deriving DecidableEq, Repr

/-- `ai_sales_response` from `src/code/app.py` (lines 61-94).  The string
literals are byte-for-byte those of the source, including the U+2019
right single quotation marks in two of them. -/
def ai_sales_response (intent sentiment : String) : SalesResponse :=
  if intent = "Purchase Interest" then
    { next_question := "Would you like to know the available models or pricing?"
      soft_handling := "Great! Let me help you choose the best option."
      recommendation := "Our latest model offers excellent value for buyers." }
  else if intent = "Ask for Price" then
    { next_question := "Do you have any budget range in mind?"
      soft_handling := "I’ll help you find the best model in your range."
      recommendation := "We have offers and EMI options you might like." }
  else if intent = "Complaint" then
    { next_question := "Could you explain the issue you're facing?"
      soft_handling := "I truly apologize for the inconvenience."
      recommendation := "We can quickly guide you through a solution." }
  else if sentiment = "NEGATIVE" then
    { next_question := "What would you like us to improve?"
      soft_handling := "I understand your concern — I'm here to help."
      recommendation := "We can offer alternatives that better fit your needs." }
  else
    { next_question := "How can I assist you further?"
      soft_handling := "I'm right here to help."
      recommendation := "Let me know your preference and I’ll recommend the best option." }

end SalesAssistant

namespace SalesAssistant

/-- The ordered rule table of the spec (section 4.1), stated as data:
keyword sets paired with their labels, in priority order. -/
def intentRules : List (List String × String) :=
  [(["buy", "purchase", "interested", "get a new"], "Purchase Interest"),
   (["price", "cost", "how much", "expensive"], "Ask for Price"),
   (["not working", "issue", "problem", "complaint"], "Complaint"),
   (["compare", "specs", "camera", "battery"], "Product Comparison"),
   (["offer", "discount", "deal"], "Ask for Offers")]

/-- First-match-wins evaluation of an ordered rule table, as the spec
describes the algorithm: return the label of the first keyword set with a
substring match in `t`, else `"General"`. -/
def firstMatchIntent : List (List String × String) → String → String
  | [], _ => "General"
  | (kws, label) :: rest, t =>
    if containsAny t kws then label else firstMatchIntent rest t

/-- The relabelling that separates the two scripts' intent labels:
`sentiment analysis.py` spells three of `app.py`'s labels differently and
agrees on the rest. -/
def relabel (l : String) : String :=
  if l = "Ask for Price" then "Ask for price"
  else if l = "Product Comparison" then "Compare Product"
  else if l = "Ask for Offers" then "Ask for offers"
  else l

/-- A collaborator invocation issued by the top-level analysis pipeline. -/
inductive CollabCall where
  | sentimentModel : String → CollabCall
  | nerModel : String → CollabCall
deriving DecidableEq, Repr

/-- The collaborator calls issued by the analysis block of `src/code/app.py`
(lines 146-183) after transcription yields the stripped text `text`:
`sentiment_model(text)` (line 161) and `ner_model(text)` (line 179) are
executed unconditionally, in this order, with no guard on `text` being
empty.  (`detect_intent` on line 171 is in-process, not a collaborator.)
The block in `src/code/sentiment analysis.py` (lines 74-108) is identical
in this respect (lines 86 and 104). -/
def pipelineCollabCalls (text : String) : List CollabCall :=
  [CollabCall.sentimentModel text, CollabCall.nerModel text]

end SalesAssistant

namespace SalesAssistant

/-- Lowering a basic-latin letter is idempotent. -/
theorem toLower_idem (c : Char) : c.toLower.toLower = c.toLower := by
  unfold Char.toLower
  by_cases h : c.toNat ≥ 65 ∧ c.toNat ≤ 90
  · rw [if_pos h]
    have hv : (c.toNat + 32).isValidChar := Or.inl (by omega)
    have ht : (Char.ofNat (c.toNat + 32)).toNat = c.toNat + 32 := by
      rw [Char.ofNat, dif_pos hv]
      rfl
    rw [if_neg]
    rw [ht]
    omega
  · rw [if_neg h, if_neg h]

/-- `pyLower` is idempotent. -/
theorem pyLower_idem (s : String) : pyLower (pyLower s) = pyLower s := by
  cases s with
  | mk data =>
    simp only [pyLower, List.map_map]
    congr 1
    exact List.map_congr_left (fun c _ => toLower_idem c)

/-- C1: `detect_intent` is total (it is a Lean function) and for every input
string returns one of the six fixed labels Purchase Interest, Ask for Price,
Complaint, Product Comparison, Ask for Offers, General — never any other
value. -/
theorem detect_intent_six_labels (text : String) :
    detect_intent text ∈ ["Purchase Interest", "Ask for Price", "Complaint",
      "Product Comparison", "Ask for Offers", "General"] := by
  simp only [detect_intent]
  split_ifs <;> simp

/-- C2: `detect_intent` evaluates the five keyword sets in fixed priority
order with first-match-wins semantics: it coincides with first-match
evaluation of the ordered rule table `intentRules`; a text matching both
rule 1 and rule 2 classifies as Purchase Interest; and the transcript about
a camera that is not working classifies as Complaint, rule 3 beating
rule 4's "camera". -/
theorem detect_intent_priority :
    (∀ text, detect_intent text = firstMatchIntent intentRules (pyLower text))
    ∧ (∀ text,
        containsAny (pyLower text) ["buy", "purchase", "interested", "get a new"] = true →
        containsAny (pyLower text) ["price", "cost", "how much", "expensive"] = true →
        detect_intent text = "Purchase Interest")
    ∧ detect_intent "The camera on this model is not working, it's a real problem"
        = "Complaint" := by
  refine ⟨?_, ?_, by decide⟩
  · intro text
    simp only [detect_intent, intentRules, firstMatchIntent]
  · intro text h1 _
    simp only [detect_intent, h1, if_true]

/-- Witness for C2: a concrete text matching both rule 1 ("buy") and
rule 2 ("price") classifies as Purchase Interest. -/
theorem detect_intent_priority_witness :
    containsAny (pyLower "I want to buy, what is the price?")
        ["buy", "purchase", "interested", "get a new"] = true
    ∧ containsAny (pyLower "I want to buy, what is the price?")
        ["price", "cost", "how much", "expensive"] = true
    ∧ detect_intent "I want to buy, what is the price?" = "Purchase Interest" :=
  ⟨by decide, by decide,
    detect_intent_priority.2.1 "I want to buy, what is the price?" (by decide) (by decide)⟩

/-- C3: for every sentiment label, `ai_sales_response` at an intent among
Purchase Interest, Ask for Price and Complaint returns that intent's fixed
triple, independent of the sentiment; in particular Complaint with POSITIVE
sentiment yields the Complaint triple, which differs from both the
negative-sentiment triple and the default triple. -/
theorem ai_sales_response_intent_first (sentiment : String) :
    ai_sales_response "Purchase Interest" sentiment =
      { next_question := "Would you like to know the available models or pricing?"
        soft_handling := "Great! Let me help you choose the best option."
        recommendation := "Our latest model offers excellent value for buyers." }
    ∧ ai_sales_response "Ask for Price" sentiment =
      { next_question := "Do you have any budget range in mind?"
        soft_handling := "I’ll help you find the best model in your range."
        recommendation := "We have offers and EMI options you might like." }
    ∧ ai_sales_response "Complaint" sentiment =
      { next_question := "Could you explain the issue you're facing?"
        soft_handling := "I truly apologize for the inconvenience."
        recommendation := "We can quickly guide you through a solution." }
    ∧ ai_sales_response "Complaint" "POSITIVE" ≠ ai_sales_response "General" "NEGATIVE"
    ∧ ai_sales_response "Complaint" "POSITIVE" ≠ ai_sales_response "General" "POSITIVE" := by
  refine ⟨?_, ?_, ?_, by decide, by decide⟩ <;> simp [ai_sales_response]

/-- C4: `ai_sales_response` is a pure total function over every
(intent, sentiment) pair of strings and always returns a record of three
non-empty strings. -/
theorem ai_sales_response_total_nonempty (intent sentiment : String) :
    (ai_sales_response intent sentiment).next_question ≠ ""
    ∧ (ai_sales_response intent sentiment).soft_handling ≠ ""
    ∧ (ai_sales_response intent sentiment).recommendation ≠ "" := by
  unfold ai_sales_response
  split_ifs <;> exact ⟨by decide, by decide, by decide⟩

/-- Counterexample to C5: the code's Ask for Price soft_handling and default
recommendation are NOT character-for-character the spec's strings — the code
spells both with U+2019 RIGHT SINGLE QUOTATION MARK where the spec has an
ASCII apostrophe. -/
theorem ai_sales_response_ascii_apostrophe_ne :
    (ai_sales_response "Ask for Price" "POSITIVE").soft_handling
        ≠ "I'll help you find the best model in your range."
    ∧ (ai_sales_response "General" "POSITIVE").recommendation
        ≠ "Let me know your preference and I'll recommend the best option." := by
  exact ⟨by decide, by decide⟩

/-- C5 amended: `ai_sales_response` returns, for each of the five cases,
strings exactly equal to the spec's, except that the Ask for Price
soft_handling and the default recommendation spell "I'll" with U+2019
instead of an ASCII apostrophe.  The three intent triples hold for every
sentiment label; the negative-sentiment triple fires at "NEGATIVE" and the
default triple at every other sentiment label. -/
theorem ai_sales_response_exact_strings (sentiment : String) :
    ai_sales_response "Purchase Interest" sentiment =
      { next_question := "Would you like to know the available models or pricing?"
        soft_handling := "Great! Let me help you choose the best option."
        recommendation := "Our latest model offers excellent value for buyers." }
    ∧ ai_sales_response "Ask for Price" sentiment =
      { next_question := "Do you have any budget range in mind?"
        soft_handling := "I’ll help you find the best model in your range."
        recommendation := "We have offers and EMI options you might like." }
    ∧ ai_sales_response "Complaint" sentiment =
      { next_question := "Could you explain the issue you're facing?"
        soft_handling := "I truly apologize for the inconvenience."
        recommendation := "We can quickly guide you through a solution." }
    ∧ ai_sales_response "General" "NEGATIVE" =
      { next_question := "What would you like us to improve?"
        soft_handling := "I understand your concern — I'm here to help."
        recommendation := "We can offer alternatives that better fit your needs." }
    ∧ (sentiment ≠ "NEGATIVE" → ai_sales_response "General" sentiment =
      { next_question := "How can I assist you further?"
        soft_handling := "I'm right here to help."
        recommendation := "Let me know your preference and I’ll recommend the best option." }) := by
  refine ⟨?_, ?_, ?_, by decide, fun h => ?_⟩ <;> simp [ai_sales_response, *]

/-- Witness for the amended C5 at sentiment POSITIVE: the default branch
hypothesis is discharged and the two U+2019 strings are produced. -/
theorem ai_sales_response_exact_strings_witness :
    ("POSITIVE" : String) ≠ "NEGATIVE"
    ∧ (ai_sales_response "Ask for Price" "NEGATIVE").soft_handling
        = "I’ll help you find the best model in your range."
    ∧ (ai_sales_response "General" "POSITIVE").recommendation
        = "Let me know your preference and I’ll recommend the best option." :=
  ⟨by decide,
    by rw [(ai_sales_response_exact_strings "NEGATIVE").2.1],
    by rw [((ai_sales_response_exact_strings "POSITIVE").2.2.2.2 (by decide))]⟩

/-- C6: whenever none of the five keyword sets matches the lowercased text,
`detect_intent` returns General; in particular the empty string and a
keyword-free sentence both yield General, with no error condition. -/
theorem detect_intent_no_keyword_general (text : String)
    (h1 : containsAny (pyLower text) ["buy", "purchase", "interested", "get a new"] = false)
    (h2 : containsAny (pyLower text) ["price", "cost", "how much", "expensive"] = false)
    (h3 : containsAny (pyLower text) ["not working", "issue", "problem", "complaint"] = false)
    (h4 : containsAny (pyLower text) ["compare", "specs", "camera", "battery"] = false)
    (h5 : containsAny (pyLower text) ["offer", "discount", "deal"] = false) :
    detect_intent text = "General"
    ∧ detect_intent "" = "General"
    ∧ detect_intent "The weather is nice today." = "General" := by
  refine ⟨?_, by decide, by decide⟩
  simp only [detect_intent, h1, h2, h3, h4, h5, Bool.false_eq_true, if_false]

/-- Witness for C6 at the empty string. -/
theorem detect_intent_no_keyword_general_witness :
    containsAny (pyLower "") ["buy", "purchase", "interested", "get a new"] = false
    ∧ detect_intent "" = "General" :=
  ⟨by decide,
    (detect_intent_no_keyword_general "" (by decide) (by decide) (by decide)
      (by decide) (by decide)).1⟩

/-- C7: `detect_intent` is case-insensitive — classifying any text equals
classifying its lowercased copy; in particular "BUY this phone" and
"buy this phone" classify identically. -/
theorem detect_intent_case_insensitive (text : String) :
    detect_intent text = detect_intent (pyLower text)
    ∧ detect_intent "BUY this phone" = detect_intent "buy this phone" := by
  refine ⟨?_, by decide⟩
  simp only [detect_intent, pyLower_idem]

/-- C8: contrary to the claim, the analysis pipeline of app.py does NOT
guard the collaborator calls on an empty transcript: with the transcription
result equal to the empty string, both the sentiment model and the NER
model are still invoked (on the empty string). -/
theorem pipeline_calls_collaborators_on_empty_transcript :
    CollabCall.sentimentModel "" ∈ pipelineCollabCalls ""
    ∧ CollabCall.nerModel "" ∈ pipelineCollabCalls "" := by
  constructor <;> simp [pipelineCollabCalls]

/-- C9: the two scripts' `detect_intent` functions agree on which rule
fires for every text — `detect_intent_sa` equals `detect_intent` followed
by the relabelling of the rule-2, rule-4 and rule-5 labels — and they are
equal whenever the result is Purchase Interest, Complaint or General. -/
theorem detect_intent_scripts_agree (text : String) :
    detect_intent_sa text = relabel (detect_intent text)
    ∧ (detect_intent text = "Purchase Interest" → detect_intent_sa text = detect_intent text)
    ∧ (detect_intent text = "Complaint" → detect_intent_sa text = detect_intent text)
    ∧ (detect_intent text = "General" → detect_intent_sa text = detect_intent text) := by
  have hmain : detect_intent_sa text = relabel (detect_intent text) := by
    simp only [detect_intent, detect_intent_sa]
    split_ifs <;> simp [relabel]
  refine ⟨hmain, ?_, ?_, ?_⟩ <;> intro h <;> rw [hmain, h] <;> decide

/-- Witness for C9 at a General-classified text. -/
theorem detect_intent_scripts_agree_witness :
    detect_intent "hello" = "General"
    ∧ detect_intent_sa "hello" = detect_intent "hello" :=
  ⟨by decide, (detect_intent_scripts_agree "hello").2.2.2 (by decide)⟩

/-- C10: for every intent other than Purchase Interest, Ask for Price and
Complaint — including unknown strings such as "Compare Product" — the
output of `ai_sales_response` depends only on whether the sentiment is
exactly "NEGATIVE": that string yields the negative-sentiment triple and
every other string yields the default triple. -/
theorem ai_sales_response_fallback (intent sentiment : String)
    (h1 : intent ≠ "Purchase Interest") (h2 : intent ≠ "Ask for Price")
    (h3 : intent ≠ "Complaint") :
    ai_sales_response intent sentiment =
      if sentiment = "NEGATIVE" then
        { next_question := "What would you like us to improve?"
          soft_handling := "I understand your concern — I'm here to help."
          recommendation := "We can offer alternatives that better fit your needs." }
      else
        { next_question := "How can I assist you further?"
          soft_handling := "I'm right here to help."
          recommendation := "Let me know your preference and I’ll recommend the best option." } := by
  unfold ai_sales_response
  rw [if_neg h1, if_neg h2, if_neg h3]

/-- Witness for C10 at the second script's label "Compare Product" with
lowercase sentiment "negative" (which takes the default branch). -/
theorem ai_sales_response_fallback_witness :
    ("Compare Product" : String) ≠ "Purchase Interest"
    ∧ ai_sales_response "Compare Product" "negative" =
      (if ("negative" : String) = "NEGATIVE" then
        { next_question := "What would you like us to improve?"
          soft_handling := "I understand your concern — I'm here to help."
          recommendation := "We can offer alternatives that better fit your needs." }
      else
        { next_question := "How can I assist you further?"
          soft_handling := "I'm right here to help."
          recommendation := "Let me know your preference and I’ll recommend the best option." }) :=
  ⟨by decide,
    ai_sales_response_fallback "Compare Product" "negative"
      (by decide) (by decide) (by decide)⟩

end SalesAssistant
